import Mathlib

/-!
Shallow embedding of `frontend/static/js/google_places.js`: the place-selection
handler installed by `initializeGooglePlaces`, its deduplication set
`seenPlaces`, the identifier computation, the outgoing payload construction,
and the two pure extractors `extractCity` and `extractCountry`.

JavaScript numbers appearing here (latitude/longitude) are modelled as
rationals; the only arithmetic the source performs on them is template-string
conversion, modelled by `jsNumToString` (decimal printing, integers without a
decimal point, matching JS `Number.prototype.toString` on terminating
decimals). Fields that may be `undefined` in JS (`place_id`, `geometry`,
`address_components`) are modelled as `Option`; a JS `TypeError` from
dereferencing missing `geometry` is modelled as the `crash` outcome.
-/

namespace GooglePlaces

/-- One entry of `place.address_components`: a display name and its tags. -/
structure AddressComponent where
  long_name : String
  types : List String
deriving DecidableEq, Repr

/-- `place.geometry.location`, with `lat()`/`lng()` as rational fields. -/
structure Location where
  lat : ℚ
  lng : ℚ
deriving DecidableEq, Repr

/-- The place record returned by `autocomplete.getPlace()`. `place_id`,
`geometry` and `address_components` may be `undefined` in JS, hence `Option`. -/
structure Place where
  place_id : Option String
  name : String
  geometry : Option Location
  address_components : Option (List AddressComponent)
deriving DecidableEq, Repr

/-- JS truthiness of the string-or-undefined `place.place_id`:
`undefined` and `""` are falsy, every other string is truthy. -/
def truthyId : Option String → Bool
  | none => false
  | some s => !s.isEmpty

/-- Decimal digits of the proper fraction `num / den` by long division
(`num < den`); `fuel` bounds the number of digits, enough for every
terminating decimal the source can meet. -/
def fracDigits : Nat → Nat → Nat → String
  | _, _, 0 => ""
  | num, den, fuel + 1 =>
    if num = 0 then ""
    else toString (num * 10 / den) ++ fracDigits (num * 10 % den) den fuel

/-- JS number-to-string conversion as used by the template literal
`` `${...}` ``: sign, integer part, and a fractional part only when nonzero
(so `1.0` prints as `"1"`). -/
def jsNumToString (q : ℚ) : String :=
  let sgn := if q.num < 0 then "-" else ""
  let n : Nat := q.num.natAbs
  let d : Nat := q.den
  sgn ++ toString (n / d) ++ (if n % d = 0 then "" else "." ++ fracDigits (n % d) d 64)

/-- The fallback key `` `${place.name}_${lat}_${lng}` `` built when
`place.place_id` is falsy. -/
def fallbackKey (place : Place) (loc : Location) : String :=
  place.name ++ "_" ++ jsNumToString loc.lat ++ "_" ++ jsNumToString loc.lng

/-- `placeIdentifier`: `place.place_id || name_lat_lng`. The fallback
dereferences `place.geometry.location`; with `geometry` absent this is a JS
`TypeError`, modelled as `none`. -/
def placeIdentifier (place : Place) : Option String :=
  if truthyId place.place_id then place.place_id
  else
    match place.geometry with
    | some loc => some (fallbackKey place loc)
    | none => none

/-- A component matches the city scan when its `types` include `"locality"`
or `"administrative_area_level_1"`. -/
def cityMatch (c : AddressComponent) : Bool :=
  c.types.contains "locality" || c.types.contains "administrative_area_level_1"

/-- The `for`/`break` loop body of `extractCity`: name of the first matching
component, `""` when none matches. -/
def findFirstCity : List AddressComponent → String
  | [] => ""
  | c :: rest => if cityMatch c then c.long_name else findFirstCity rest

/-- `extractCity`: `""` unless `place.address_components` is present, else the
first component tagged `"locality"` or `"administrative_area_level_1"`. -/
def extractCity (place : Place) : String :=
  match place.address_components with
  | some comps => findFirstCity comps
  | none => ""

/-- A component matches the country scan when its `types` include `"country"`. -/
def countryMatch (c : AddressComponent) : Bool :=
  c.types.contains "country"

/-- The `for`/`break` loop body of `extractCountry`. -/
def findFirstCountry : List AddressComponent → String
  | [] => ""
  | c :: rest => if countryMatch c then c.long_name else findFirstCountry rest

/-- `extractCountry`: `""` unless `place.address_components` is present, else
the first component tagged `"country"`. -/
def extractCountry (place : Place) : String :=
  match place.address_components with
  | some comps => findFirstCountry comps
  | none => ""

/-- The outgoing payload object `placeData` built in the listener. -/
structure PlaceData where
  destination_name : String
  city : String
  country : String
  coordinates : ℚ × ℚ
  place_id : Option String
deriving DecidableEq, Repr

/-- Building `placeData` dereferences `place.geometry.location`
unconditionally for the `coordinates` field; missing geometry is the JS
`TypeError`, modelled as `none`. -/
def placeData (place : Place) : Option PlaceData :=
  match place.geometry with
  | some loc =>
    some { destination_name := place.name
           city := extractCity place
           country := extractCountry place
           coordinates := (loc.lat, loc.lng)
           place_id := place.place_id }
  | none => none

/-- Page-session state of the handler: the `seenPlaces` set (as the list of
identifiers added, in order, each added at most once) and the log of calls to
`sendPlaceToBackend`, each tagged with the identifier that triggered it. -/
structure HandlerState where
  seen : List String
  sent : List (String × PlaceData)
deriving DecidableEq, Repr

/-- State when the listener is installed: `new Set()` and nothing sent. -/
def initState : HandlerState := ⟨[], []⟩

/-- Outcome of one `place_changed` event: normal return, or a thrown
`TypeError`; either way the state after the event's side effects. -/
inductive StepResult where
  | ok (st : HandlerState)
  | crash (st : HandlerState)
deriving DecidableEq, Repr

/-- The `place_changed` listener, given the current state and the place from
`autocomplete.getPlace()`. Mirrors the source order: compute the identifier
(may throw), test `seenPlaces.has`, `seenPlaces.add`, build `placeData` (may
throw — after the `add`), then `sendPlaceToBackend`. -/
def handleEvent (st : HandlerState) (place : Place) : StepResult :=
  match placeIdentifier place with
  | none => .crash st
  | some pid =>
    if pid ∈ st.seen then .ok st
    else
      match placeData place with
      | none => .crash ⟨st.seen ++ [pid], st.sent⟩
      | some pd => .ok ⟨st.seen ++ [pid], st.sent ++ [(pid, pd)]⟩

/-- State after one event; a thrown error leaves the listener but keeps the
side effects already performed, and later events still fire. -/
def stepState (st : HandlerState) (place : Place) : HandlerState :=
  match handleEvent st place with
  | .ok st1 => st1
  | .crash st1 => st1

/-- State after a whole sequence of `place_changed` events in one page session. -/
def runEvents (places : List Place) : HandlerState :=
  places.foldl stepState initState

/-- Number of backend submissions carrying a given identifier. -/
def submissionsFor (st : HandlerState) (i : String) : Nat :=
  (st.sent.map Prod.fst).count i

/-! ### Concrete places used in witnesses and counterexamples -/

/-- The spec's fallback scenario: no `place_id`, name `"X"`, lat 1.0, lng 2.0. -/
def xPlace : Place := ⟨none, "X", some ⟨1, 2⟩, none⟩

/-- Same coordinates and name, but `place_id` present and equal to `""`. -/
def emptyIdPlace : Place := ⟨some "", "X", some ⟨1, 2⟩, none⟩

/-- A record with a truthy `place_id` but no `geometry`. -/
def ghostPlace : Place := ⟨some "p", "Ghost", none, none⟩

/-- A record with neither `place_id` nor `geometry`. -/
def ghostAnon : Place := ⟨none, "Ghost", none, none⟩

/-- A record whose components hold a non-matching entry, then a `"locality"`
entry, then a later `"administrative_area_level_1"` entry. -/
def cityTestPlace : Place :=
  ⟨some "p2", "T", none,
    some [⟨"F", ["route"]⟩, ⟨"Paris", ["locality"]⟩,
      ⟨"Bavaria", ["administrative_area_level_1"]⟩]⟩

/-- A record whose components hold two `"country"` entries after a
non-matching one. -/
def countryTestPlace : Place :=
  ⟨some "p3", "T", none,
    some [⟨"Paris", ["locality"]⟩, ⟨"France", ["country"]⟩,
      ⟨"Germany", ["country"]⟩]⟩

/-- The spec's Eiffel Tower scenario record. -/
def eiffel : Place :=
  ⟨some "p1", "Eiffel Tower", some ⟨48.8584, 2.2945⟩,
    some [⟨"Paris", ["locality"]⟩, ⟨"France", ["country"]⟩]⟩

/-! ### Helper lemmas -/

theorem placeIdentifier_of_truthy {p : Place} {pid : String}
    (h : p.place_id = some pid) (hne : pid ≠ "") :
    placeIdentifier p = some pid := by
  have hempty : pid.isEmpty = false := by
    cases hpe : pid.isEmpty
    · rfl
    · exact absurd ((String.isEmpty_iff pid).mp hpe) hne
  unfold placeIdentifier truthyId
  rw [h]
  simp [hempty]

theorem placeIdentifier_of_falsy {p : Place} {loc : Location}
    (h : truthyId p.place_id = false) (hg : p.geometry = some loc) :
    placeIdentifier p = some (fallbackKey p loc) := by
  unfold placeIdentifier
  rw [h, hg]
  simp

theorem handleEvent_seen {st : HandlerState} {p : Place} {pid : String}
    (hid : placeIdentifier p = some pid) (hmem : pid ∈ st.seen) :
    handleEvent st p = .ok st := by
  unfold handleEvent
  rw [hid]
  simp [hmem]

theorem handleEvent_new {st : HandlerState} {p : Place} {pid : String} {loc : Location}
    (hid : placeIdentifier p = some pid) (hmem : pid ∉ st.seen)
    (hg : p.geometry = some loc) :
    handleEvent st p = .ok ⟨st.seen ++ [pid],
      st.sent ++ [(pid, ⟨p.name, extractCity p, extractCountry p,
        (loc.lat, loc.lng), p.place_id⟩)]⟩ := by
  unfold handleEvent
  rw [hid]
  simp only [hmem, if_neg, if_false]
  unfold placeData
  rw [hg]

/-- Session invariant behind the dedup guarantee: the identifiers submitted so
far are pairwise distinct and each of them is already in `seenPlaces`. -/
def Inv (st : HandlerState) : Prop :=
  (st.sent.map Prod.fst).Nodup ∧ ∀ x ∈ st.sent.map Prod.fst, x ∈ st.seen

theorem inv_initState : Inv initState := by
  constructor <;> simp [initState]

theorem inv_stepState {st : HandlerState} (h : Inv st) (p : Place) :
    Inv (stepState st p) := by
  obtain ⟨hnd, hsub⟩ := h
  unfold stepState handleEvent
  cases hid : placeIdentifier p with
  | none => exact ⟨hnd, hsub⟩
  | some pid =>
    by_cases hmem : pid ∈ st.seen
    · simp only [hmem, if_true]
      exact ⟨hnd, hsub⟩
    · simp only [hmem, if_false]
      cases hpd : placeData p with
      | none =>
        refine ⟨hnd, fun x hx => ?_⟩
        exact List.mem_append_left _ (hsub x hx)
      | some pd =>
        constructor
        · rw [List.map_append]
          rw [List.nodup_append]
          refine ⟨hnd, List.nodup_singleton pid, ?_⟩
          intro x hx hx1
          simp only [List.map_cons, List.map_nil, List.mem_singleton] at hx1
          subst hx1
          exact hmem (hsub x hx)
        · intro x hx
          rw [List.map_append, List.mem_append] at hx
          rcases hx with hx | hx
          · exact List.mem_append_left _ (hsub x hx)
          · simp only [List.map_cons, List.map_nil, List.mem_singleton] at hx
            subst hx
            exact List.mem_append_right _ (List.mem_singleton.mpr rfl)

theorem inv_foldl : ∀ (ps : List Place) (st : HandlerState),
    Inv st → Inv (ps.foldl stepState st)
  | [], _, h => h
  | p :: ps, st, h => inv_foldl ps (stepState st p) (inv_stepState h p)

theorem inv_runEvents (ps : List Place) : Inv (runEvents ps) :=
  inv_foldl ps initState inv_initState

theorem findFirstCity_of_no_match : ∀ {comps : List AddressComponent},
    (∀ c ∈ comps, cityMatch c = false) → findFirstCity comps = ""
  | [], _ => rfl
  | c :: rest, h => by
    have hc : cityMatch c = false := h c (List.mem_cons_self c rest)
    unfold findFirstCity
    rw [hc]
    exact findFirstCity_of_no_match fun b hb => h b (List.mem_cons_of_mem c hb)

theorem findFirstCity_first : ∀ (pre : List AddressComponent)
    {c : AddressComponent} (post : List AddressComponent),
    (∀ b ∈ pre, cityMatch b = false) → cityMatch c = true →
    findFirstCity (pre ++ c :: post) = c.long_name
  | [], c, post, _, hc => by
    rw [List.nil_append]
    simp only [findFirstCity, hc, if_true]
  | b :: pre, c, post, hpre, hc => by
    have hb : cityMatch b = false := hpre b (List.mem_cons_self b pre)
    rw [List.cons_append]
    unfold findFirstCity
    rw [hb]
    exact findFirstCity_first pre post
      (fun a ha => hpre a (List.mem_cons_of_mem b ha)) hc

theorem findFirstCountry_of_no_match : ∀ {comps : List AddressComponent},
    (∀ c ∈ comps, countryMatch c = false) → findFirstCountry comps = ""
  | [], _ => rfl
  | c :: rest, h => by
    have hc : countryMatch c = false := h c (List.mem_cons_self c rest)
    unfold findFirstCountry
    rw [hc]
    exact findFirstCountry_of_no_match fun b hb => h b (List.mem_cons_of_mem c hb)

theorem findFirstCountry_first : ∀ (pre : List AddressComponent)
    {c : AddressComponent} (post : List AddressComponent),
    (∀ b ∈ pre, countryMatch b = false) → countryMatch c = true →
    findFirstCountry (pre ++ c :: post) = c.long_name
  | [], c, post, _, hc => by
    rw [List.nil_append]
    simp only [findFirstCountry, hc, if_true]
  | b :: pre, c, post, hpre, hc => by
    have hb : countryMatch b = false := hpre b (List.mem_cons_self b pre)
    rw [List.cons_append]
    unfold findFirstCountry
    rw [hb]
    exact findFirstCountry_first pre post
      (fun a ha => hpre a (List.mem_cons_of_mem b ha)) hc

/-! ### Claims -/

/-- C1 counterexample: a record with a truthy `place_id` but no `geometry`
yields two events with equal computed identifiers yet zero backend
submissions (the first event adds the identifier to the seen-set and then
throws while building the payload), so "exactly one submission" fails. -/
theorem claim1_counterexample :
    placeIdentifier ghostPlace = some "p"
    ∧ submissionsFor (runEvents [ghostPlace, ghostPlace]) "p" = 0
    ∧ submissionsFor (runEvents [ghostPlace, ghostPlace]) "p" ≠ 1 := by
  decide

/-- C1 (amended): in any page session the same identifier is submitted at
most once; and when the record carries geometry (so no event throws), two
selections with the same computed identifier yield exactly one submission. -/
theorem claim1_at_most_once :
    (∀ (places : List Place) (i : String),
      submissionsFor (runEvents places) i ≤ 1)
    ∧ ∀ (p : Place) (loc : Location) (i : String),
        p.geometry = some loc → placeIdentifier p = some i →
        submissionsFor (runEvents [p, p]) i = 1 := by
  constructor
  · intro places i
    exact List.nodup_iff_count_le_one.mp (inv_runEvents places).1 i
  · intro p loc i hg hi
    have h1 : handleEvent initState p = .ok ⟨initState.seen ++ [i],
        initState.sent ++ [(i, ⟨p.name, extractCity p, extractCountry p,
          (loc.lat, loc.lng), p.place_id⟩)]⟩ :=
      handleEvent_new hi (by simp [initState]) hg
    have hs1 : stepState initState p = ⟨[i], [(i, ⟨p.name, extractCity p,
        extractCountry p, (loc.lat, loc.lng), p.place_id⟩)]⟩ := by
      unfold stepState
      rw [h1]
      rfl
    show submissionsFor (stepState (stepState initState p) p) i = 1
    rw [hs1]
    unfold stepState
    rw [handleEvent_seen hi (by simp)]
    simp [submissionsFor]

/-- C1 witness: the at-most-once bound and the exactly-once case at the
concrete fallback-scenario record. -/
theorem claim1_witness :
    submissionsFor (runEvents [xPlace, xPlace]) "X_1_2" ≤ 1
    ∧ submissionsFor (runEvents [xPlace, xPlace]) "X_1_2" = 1 :=
  ⟨claim1_at_most_once.1 [xPlace, xPlace] "X_1_2",
   claim1_at_most_once.2 xPlace ⟨1, 2⟩ "X_1_2" rfl (by decide)⟩

/-- C2: `extractCity` returns `""` when `address_components` is absent or no
component is tagged `"locality"`/`"administrative_area_level_1"`, and
otherwise the `long_name` of the first matching component in array order (so
a `"locality"` component wins over any later
`"administrative_area_level_1"` one). -/
theorem claim2_extractCity_spec (p : Place) :
    (p.address_components = none → extractCity p = "")
    ∧ ∀ comps, p.address_components = some comps →
        ((∀ c ∈ comps, cityMatch c = false) → extractCity p = "")
        ∧ ∀ (pre : List AddressComponent) (c : AddressComponent)
            (post : List AddressComponent),
            comps = pre ++ c :: post → (∀ b ∈ pre, cityMatch b = false) →
            cityMatch c = true → extractCity p = c.long_name := by
  constructor
  · intro h
    simp only [extractCity, h]
  · intro comps h
    constructor
    · intro hnone
      simp only [extractCity, h]
      exact findFirstCity_of_no_match hnone
    · intro pre c post hdecomp hpre hc
      simp only [extractCity, h, hdecomp]
      exact findFirstCity_first pre post hpre hc

/-- C2 witness: a `"locality"` component wins over a later
`"administrative_area_level_1"` one, and a record without
`address_components` gives `""`. -/
theorem claim2_witness :
    extractCity cityTestPlace = "Paris" ∧ extractCity ghostAnon = "" :=
  ⟨((claim2_extractCity_spec cityTestPlace).2
      [⟨"F", ["route"]⟩, ⟨"Paris", ["locality"]⟩,
        ⟨"Bavaria", ["administrative_area_level_1"]⟩] rfl).2
      [⟨"F", ["route"]⟩] ⟨"Paris", ["locality"]⟩
      [⟨"Bavaria", ["administrative_area_level_1"]⟩] rfl (by decide) (by decide),
   (claim2_extractCity_spec ghostAnon).1 rfl⟩

/-- C3: `extractCountry` returns `""` when `address_components` is absent or
no component is tagged `"country"`, and otherwise the `long_name` of the
first `"country"`-tagged component in array order. -/
theorem claim3_extractCountry_spec (p : Place) :
    (p.address_components = none → extractCountry p = "")
    ∧ ∀ comps, p.address_components = some comps →
        ((∀ c ∈ comps, countryMatch c = false) → extractCountry p = "")
        ∧ ∀ (pre : List AddressComponent) (c : AddressComponent)
            (post : List AddressComponent),
            comps = pre ++ c :: post → (∀ b ∈ pre, countryMatch b = false) →
            countryMatch c = true → extractCountry p = c.long_name := by
  constructor
  · intro h
    simp only [extractCountry, h]
  · intro comps h
    constructor
    · intro hnone
      simp only [extractCountry, h]
      exact findFirstCountry_of_no_match hnone
    · intro pre c post hdecomp hpre hc
      simp only [extractCountry, h, hdecomp]
      exact findFirstCountry_first pre post hpre hc

/-- C3 witness: the first `"country"` component wins over a later one, and a
record without `address_components` gives `""`. -/
theorem claim3_witness :
    extractCountry countryTestPlace = "France" ∧ extractCountry ghostAnon = "" :=
  ⟨((claim3_extractCountry_spec countryTestPlace).2
      [⟨"Paris", ["locality"]⟩, ⟨"France", ["country"]⟩,
        ⟨"Germany", ["country"]⟩] rfl).2
      [⟨"Paris", ["locality"]⟩] ⟨"France", ["country"]⟩
      [⟨"Germany", ["country"]⟩] rfl (by decide) (by decide),
   (claim3_extractCountry_spec ghostAnon).1 rfl⟩

/-- C4 counterexample: a record whose `place_id` is present but equal to
`""` does not get `""` as its identifier — the code tests truthiness, so the
fallback key is used instead. -/
theorem claim4_counterexample :
    emptyIdPlace.place_id = some "" ∧ placeIdentifier emptyIdPlace = some "X_1_2"
    ∧ placeIdentifier emptyIdPlace ≠ emptyIdPlace.place_id := by
  decide

/-- C4 (amended): the identifier is the stable identifier when it is present
and nonempty; when it is absent or empty the identifier is the
name-and-coordinates concatenation; in particular the record with no
`place_id`, name `"X"`, lat 1.0, lng 2.0 gets identifier `"X_1_2"`. -/
theorem claim4_identifier_derivation :
    (∀ (p : Place) (pid : String), p.place_id = some pid → pid ≠ "" →
        placeIdentifier p = some pid)
    ∧ (∀ (p : Place) (loc : Location),
        (p.place_id = none ∨ p.place_id = some "") → p.geometry = some loc →
        placeIdentifier p = some (fallbackKey p loc))
    ∧ placeIdentifier xPlace = some "X_1_2" := by
  refine ⟨fun p pid h hne => placeIdentifier_of_truthy h hne,
    fun p loc h hg => ?_, by decide⟩
  have htr : truthyId p.place_id = false := by
    rcases h with h | h <;> rw [h] <;> rfl
  exact placeIdentifier_of_falsy htr hg

/-- C4 witness: a nonempty stable identifier is used as-is, and an absent one
triggers the fallback key. -/
theorem claim4_witness :
    placeIdentifier ⟨some "id9", "Y", none, none⟩ = some "id9"
    ∧ placeIdentifier xPlace = some (fallbackKey xPlace ⟨1, 2⟩) :=
  ⟨claim4_identifier_derivation.1 ⟨some "id9", "Y", none, none⟩ "id9" rfl (by decide),
   claim4_identifier_derivation.2.1 xPlace ⟨1, 2⟩ (Or.inl rfl) rfl⟩

/-- C5: an event whose computed identifier is already in the seen-set is a
no-op — no submission, no thrown error, and the state is unchanged. -/
theorem claim5_duplicate_noop (st : HandlerState) (p : Place) (pid : String)
    (hid : placeIdentifier p = some pid) (hmem : pid ∈ st.seen) :
    handleEvent st p = .ok st :=
  handleEvent_seen hid hmem

/-- C5 witness: reselecting the Eiffel Tower record with `"p1"` already seen
leaves the state untouched. -/
theorem claim5_witness :
    handleEvent ⟨["p1"], []⟩ eiffel = .ok ⟨["p1"], []⟩ :=
  claim5_duplicate_noop ⟨["p1"], []⟩ eiffel "p1" (by decide) (by decide)

/-- C6 counterexample: an unseen identifier is inserted into the seen-set
but nothing is submitted when the record lacks geometry — the payload
construction throws, so "inserts and submits" fails as a universal claim. -/
theorem claim6_counterexample :
    placeIdentifier ghostPlace = some "p" ∧ "p" ∉ initState.seen
    ∧ handleEvent initState ghostPlace = .crash ⟨["p"], []⟩
    ∧ (runEvents [ghostPlace]).sent = [] := by
  decide

/-- C6 (amended): for an event whose computed identifier is not yet in the
seen-set and whose record carries geometry, the handler appends the
identifier to the seen-set and submits exactly the payload
`{destination_name, city, country, coordinates, place_id}`. -/
theorem claim6_new_place_submits (st : HandlerState) (p : Place)
    (pid : String) (loc : Location)
    (hid : placeIdentifier p = some pid) (hmem : pid ∉ st.seen)
    (hg : p.geometry = some loc) :
    handleEvent st p = .ok ⟨st.seen ++ [pid],
      st.sent ++ [(pid, ⟨p.name, extractCity p, extractCountry p,
        (loc.lat, loc.lng), p.place_id⟩)]⟩ :=
  handleEvent_new hid hmem hg

/-- C6 witness: the Eiffel Tower scenario — first selection submits exactly
the payload named by the spec. -/
theorem claim6_witness :
    handleEvent initState eiffel = .ok ⟨["p1"],
      [("p1", ⟨"Eiffel Tower", "Paris", "France",
        (48.8584, 2.2945), some "p1"⟩)]⟩ :=
  claim6_new_place_submits initState eiffel "p1" ⟨48.8584, 2.2945⟩
    (by decide) (by decide) rfl

/-- C7: a record with neither stable identifier nor geometry makes the
identifier computation throw (the handler crashes on such an event), while
any record carrying geometry always gets an identifier. -/
theorem claim7_missing_geometry :
    (ghostAnon.place_id = none ∧ ghostAnon.geometry = none
      ∧ placeIdentifier ghostAnon = none
      ∧ ∀ st : HandlerState, handleEvent st ghostAnon = .crash st)
    ∧ ∀ (p : Place) (loc : Location), p.geometry = some loc →
        (placeIdentifier p).isSome = true := by
  constructor
  · exact ⟨rfl, rfl, rfl, fun st => rfl⟩
  · intro p loc hg
    cases htr : truthyId p.place_id with
    | false => simp [placeIdentifier, htr, hg]
    | true =>
      cases hpid : p.place_id with
      | none =>
        rw [hpid] at htr
        exact absurd htr (by decide)
      | some s =>
        rw [hpid] at htr
        simp [placeIdentifier, hpid, htr]

/-- C7 witness: the crash at the identifier-less, geometry-less record, and
totality of the identifier at a record with geometry. -/
theorem claim7_witness :
    handleEvent initState ghostAnon = .crash initState
    ∧ (placeIdentifier xPlace).isSome = true :=
  ⟨claim7_missing_geometry.1.2.2.2 initState,
   claim7_missing_geometry.2 xPlace ⟨1, 2⟩ rfl⟩

/-- C8: the seen-set starts empty when the listener is installed and only
grows: after any event it is a superset of what it was before, and nothing
ever removes or clears an identifier. -/
theorem claim8_seen_monotone :
    initState.seen = [] ∧ ∀ (st : HandlerState) (p : Place),
      st.seen ⊆ (stepState st p).seen := by
  refine ⟨rfl, fun st p => ?_⟩
  unfold stepState handleEvent
  cases placeIdentifier p with
  | none => exact fun a ha => ha
  | some pid =>
    by_cases hmem : pid ∈ st.seen
    · simp only [hmem, if_true]
      exact fun a ha => ha
    · simp only [hmem, if_false]
      cases placeData p with
      | none => exact List.subset_append_left _ _
      | some pd => exact List.subset_append_left _ _

/-- C8 witness: an identifier present before an event is still present after
it, and the installed state has an empty seen-set. -/
theorem claim8_witness :
    initState.seen = [] ∧ "q" ∈ (stepState ⟨["q"], []⟩ ghostAnon).seen :=
  ⟨claim8_seen_monotone.1,
   claim8_seen_monotone.2 ⟨["q"], []⟩ ghostAnon (by decide)⟩

/-- C9: on a first-time selection of a record with a truthy stable
identifier but no geometry, the handler inserts the identifier and then
throws while building the payload coordinates — missing geometry is not
confined to the fallback-identifier path. -/
theorem claim9_stable_id_crash (st : HandlerState) (p : Place) (pid : String)
    (hpid : p.place_id = some pid) (hne : pid ≠ "") (hg : p.geometry = none)
    (hmem : pid ∉ st.seen) :
    handleEvent st p = .crash ⟨st.seen ++ [pid], st.sent⟩ := by
  have hid := placeIdentifier_of_truthy hpid hne
  unfold handleEvent
  rw [hid]
  simp [hmem, placeData, hg]

/-- C9 witness: the geometry-less record with stable identifier `"p"`
crashes on first selection, with `"p"` already added to the seen-set. -/
theorem claim9_witness :
    handleEvent initState ghostPlace = .crash ⟨["p"], []⟩ :=
  claim9_stable_id_crash initState ghostPlace "p" rfl (by decide) rfl (by decide)

/-- C10: a `place_id` that is present but equal to `""` is treated as
absent — the identifier choice tests truthiness, so the name-and-coordinates
fallback key is used. -/
theorem claim10_empty_id_fallback (p : Place) (loc : Location)
    (hpid : p.place_id = some "") (hg : p.geometry = some loc) :
    placeIdentifier p = some (fallbackKey p loc) := by
  have htr : truthyId p.place_id = false := by rw [hpid]; rfl
  exact placeIdentifier_of_falsy htr hg

/-- C10 witness: the empty-`place_id` record at (1, 2) named `"X"` gets the
fallback identifier `"X_1_2"`. -/
theorem claim10_witness :
    placeIdentifier emptyIdPlace = some "X_1_2" :=
  claim10_empty_id_fallback emptyIdPlace ⟨1, 2⟩ rfl rfl

end GooglePlaces
